import Mathlib

/-!
Verification of the MediTrack drug-interaction client services and of the
Drug-Drug Interaction Resolution Engine described by the specification.

Client-side code (`services/drugInteractionService.js`, `services/api.js`,
`services/aiService.js`, `PrescriptionChecker.js`, `AddManually.js`) is
embedded directly from the source.  Engine components that live behind the
HTTP boundary (identity resolver, curated store, neural classifier,
interaction cache) are not part of the repository sources; they are modelled
from the specification and their doc comments say so explicitly.
-/

namespace MediTrack

/-- JavaScript `toLowerCase`, modelled as per-character lowering (the strings
compared in this codebase are ASCII medication and severity names). -/
def lowerStr (s : String) : String := ⟨s.data.map Char.toLower⟩

/-- One pairwise interaction record as consumed by the web client
(`drugInteractionService.js`).  Every field is optional because the JS code
guards each access (`interaction.severity?.`). -/
structure Interaction where
  drug1 : Option String
  drug2 : Option String
  severity : Option String
  description : Option String
deriving Repr, DecidableEq

/-- `interaction.severity?.toLowerCase() || 'low'` from
`DrugInteractionService.getRiskLevel`: a missing severity or an empty string
(both falsy in JS) fall back to `'low'`. -/
def jsSevOrLow (i : Interaction) : String :=
  match i.severity with
  | some s => if lowerStr s = "" then "low" else lowerStr s
  | none => "low"

/-- `DrugInteractionService.getRiskLevel` (services/drugInteractionService.js,
lines 58-66), embedded clause by clause. -/
def getRiskLevel (interactions : List Interaction) : String :=
  if interactions.length = 0 then "low"
  else
    let severities := interactions.map jsSevOrLow
    if severities.contains "high" || severities.contains "severe" then "high"
    else if severities.contains "moderate" || severities.contains "medium" then "medium"
    else "low"

/-- Rank of one record under the specification's total severity order
`None < Minor < Moderate < Major`, with the spec's reading
Major = high/severe and Moderate = moderate/medium. -/
def severityRank (i : Interaction) : Nat :=
  if jsSevOrLow i = "high" ∨ jsSevOrLow i = "severe" then 3
  else if jsSevOrLow i = "moderate" ∨ jsSevOrLow i = "medium" then 2
  else if jsSevOrLow i = "minor" then 1
  else 0

/-- Maximum severity rank over a list of records (0 on the empty list). -/
def maxRank (l : List Interaction) : Nat :=
  l.foldr (fun i m => max (severityRank i) m) 0

/-- The verdict string the client reports for a given maximal severity rank:
Major (3) is the highest level, Moderate (2) the middle one, anything below
the lowest. -/
def verdictOf (r : Nat) : String :=
  if 3 ≤ r then "high" else if 2 ≤ r then "medium" else "low"

lemma contains_map_jsSev (l : List Interaction) (a : String) :
    ((l.map jsSevOrLow).contains a = true) ↔ ∃ i ∈ l, jsSevOrLow i = a := by
  rw [List.contains, List.elem_iff, List.mem_map]

lemma three_le_severityRank_iff (i : Interaction) :
    3 ≤ severityRank i ↔ (jsSevOrLow i = "high" ∨ jsSevOrLow i = "severe") := by
  unfold severityRank
  by_cases h : jsSevOrLow i = "high" ∨ jsSevOrLow i = "severe"
  · simp [h]
  · rw [if_neg h]
    have hv : (if jsSevOrLow i = "moderate" ∨ jsSevOrLow i = "medium" then 2
        else if jsSevOrLow i = "minor" then 1 else 0) ≤ 2 := by
      split
      · omega
      · split <;> omega
    constructor
    · intro hle; omega
    · intro hc; exact absurd hc h

lemma two_le_severityRank_iff (i : Interaction) :
    2 ≤ severityRank i ↔ (jsSevOrLow i = "high" ∨ jsSevOrLow i = "severe"
      ∨ jsSevOrLow i = "moderate" ∨ jsSevOrLow i = "medium") := by
  unfold severityRank
  by_cases h : jsSevOrLow i = "high" ∨ jsSevOrLow i = "severe"
  · rw [if_pos h]
    constructor
    · intro hle
      rcases h with h | h
      · exact Or.inl h
      · exact Or.inr (Or.inl h)
    · intro hc; omega
  · rw [if_neg h]
    by_cases h2 : jsSevOrLow i = "moderate" ∨ jsSevOrLow i = "medium"
    · rw [if_pos h2]
      constructor
      · intro hle
        rcases h2 with h2 | h2
        · exact Or.inr (Or.inr (Or.inl h2))
        · exact Or.inr (Or.inr (Or.inr h2))
      · intro hc; omega
    · rw [if_neg h2]
      have hv : (if jsSevOrLow i = "minor" then 1 else 0) ≤ 1 := by
        split <;> omega
      constructor
      · intro hle; omega
      · intro hc
        rcases hc with hc | hc | hc | hc
        · exact absurd (Or.inl hc) h
        · exact absurd (Or.inr hc) h
        · exact absurd (Or.inl hc) h2
        · exact absurd (Or.inr hc) h2

lemma le_maxRank_iff (k : Nat) (hk : 0 < k) (l : List Interaction) :
    k ≤ maxRank l ↔ ∃ i ∈ l, k ≤ severityRank i := by
  induction l with
  | nil =>
    simp only [maxRank, List.foldr_nil, List.not_mem_nil]
    constructor
    · intro h; omega
    · rintro ⟨i, hi, -⟩; exact absurd hi (by simp)
  | cons a t ih =>
    have hstep : maxRank (a :: t) = max (severityRank a) (maxRank t) := rfl
    rw [hstep, le_max_iff, ih]
    constructor
    · rintro (h | ⟨i, hi, hk2⟩)
      · exact ⟨a, List.mem_cons_self a t, h⟩
      · exact ⟨i, List.mem_cons_of_mem a hi, hk2⟩
    · rintro ⟨i, hi, hk2⟩
      rcases List.mem_cons.mp hi with rfl | hi2
      · exact Or.inl hk2
      · exact Or.inr ⟨i, hi2, hk2⟩

/-- C2: for every list of pairwise interaction records, the overall severity
computed by `DrugInteractionService.getRiskLevel` equals the maximum severity
across the records under the total order None < Minor < Moderate < Major:
any Major (high/severe) record forces the highest verdict, otherwise any
Moderate (moderate/medium) record forces the middle verdict, and otherwise
the verdict is the lowest level. -/
theorem getRiskLevel_eq_max_severity (l : List Interaction) :
    getRiskLevel l = verdictOf (maxRank l) := by
  rcases l with - | ⟨a, t⟩
  · rfl
  · have hne : ¬ ((a :: t).length = 0) := by simp
    unfold getRiskLevel
    rw [if_neg hne]
    by_cases h3 : 3 ≤ maxRank (a :: t)
    · have ⟨i, hi, hri⟩ := (le_maxRank_iff 3 (by omega) (a :: t)).mp h3
      have hflag : (((a :: t).map jsSevOrLow).contains "high"
          || ((a :: t).map jsSevOrLow).contains "severe") = true := by
        rcases (three_le_severityRank_iff i).mp hri with hs | hs
        · exact Bool.or_eq_true_iff.mpr (Or.inl ((contains_map_jsSev _ _).mpr ⟨i, hi, hs⟩))
        · exact Bool.or_eq_true_iff.mpr (Or.inr ((contains_map_jsSev _ _).mpr ⟨i, hi, hs⟩))
      rw [if_pos hflag]
      unfold verdictOf
      rw [if_pos h3]
    · have hflag : ¬ ((((a :: t).map jsSevOrLow).contains "high"
          || ((a :: t).map jsSevOrLow).contains "severe") = true) := by
        intro hc
        rcases Bool.or_eq_true_iff.mp hc with hc | hc
        · have ⟨i, hi, hs⟩ := (contains_map_jsSev _ _).mp hc
          exact h3 ((le_maxRank_iff 3 (by omega) _).mpr
            ⟨i, hi, (three_le_severityRank_iff i).mpr (Or.inl hs)⟩)
        · have ⟨i, hi, hs⟩ := (contains_map_jsSev _ _).mp hc
          exact h3 ((le_maxRank_iff 3 (by omega) _).mpr
            ⟨i, hi, (three_le_severityRank_iff i).mpr (Or.inr hs)⟩)
      rw [if_neg hflag]
      by_cases h2 : 2 ≤ maxRank (a :: t)
      · have ⟨i, hi, hri⟩ := (le_maxRank_iff 2 (by omega) (a :: t)).mp h2
        have hflag2 : (((a :: t).map jsSevOrLow).contains "moderate"
            || ((a :: t).map jsSevOrLow).contains "medium") = true := by
          rcases (two_le_severityRank_iff i).mp hri with hs | hs | hs | hs
          · exact absurd (Bool.or_eq_true_iff.mpr
              (Or.inl ((contains_map_jsSev _ _).mpr ⟨i, hi, hs⟩))) hflag
          · exact absurd (Bool.or_eq_true_iff.mpr
              (Or.inr ((contains_map_jsSev _ _).mpr ⟨i, hi, hs⟩))) hflag
          · exact Bool.or_eq_true_iff.mpr (Or.inl ((contains_map_jsSev _ _).mpr ⟨i, hi, hs⟩))
          · exact Bool.or_eq_true_iff.mpr (Or.inr ((contains_map_jsSev _ _).mpr ⟨i, hi, hs⟩))
        rw [if_pos hflag2]
        unfold verdictOf
        rw [if_neg h3, if_pos h2]
      · have hflag2 : ¬ ((((a :: t).map jsSevOrLow).contains "moderate"
            || ((a :: t).map jsSevOrLow).contains "medium") = true) := by
          intro hc
          rcases Bool.or_eq_true_iff.mp hc with hc | hc
          · have ⟨i, hi, hs⟩ := (contains_map_jsSev _ _).mp hc
            exact h2 ((le_maxRank_iff 2 (by omega) _).mpr
              ⟨i, hi, (two_le_severityRank_iff i).mpr (Or.inr (Or.inr (Or.inl hs)))⟩)
          · have ⟨i, hi, hs⟩ := (contains_map_jsSev _ _).mp hc
            exact h2 ((le_maxRank_iff 2 (by omega) _).mpr
              ⟨i, hi, (two_le_severityRank_iff i).mpr (Or.inr (Or.inr (Or.inr hs)))⟩)
        rw [if_neg hflag2]
        unfold verdictOf
        rw [if_neg h3, if_neg h2]

/-- The hard-coded medication vocabulary of
`AIService.extractMedicationsFromMessage` (services/aiService.js,
lines 115-118), in source order. -/
def commonMedications : List String :=
  ["paracetamol", "ibuprofen", "aspirin", "clopidogrel",
   "metformin", "lisinopril", "atorvastatin", "amlodipine"]

/-- `AIService.extractMedicationsFromMessage` (services/aiService.js,
lines 112-130): walk the hard-coded vocabulary in order and keep the names
occurring as substrings of the lowercased message (JS `String.includes`). -/
def extractMedicationsFromMessage (message : String) : List String :=
  commonMedications.filter (fun med => decide (med.data <:+: (lowerStr message).data))

/-- C10: for every message, `extractMedicationsFromMessage` returns exactly
those of the eight hard-coded names occurring case-insensitively as
substrings of the message, without duplicates, in the fixed vocabulary order
(a sublist of the vocabulary), and never a name outside the vocabulary. -/
theorem extractMedications_characterization (message : String) (m : String) :
    (m ∈ extractMedicationsFromMessage message ↔
      (m ∈ commonMedications ∧ m.data <:+: (lowerStr message).data)) ∧
    (extractMedicationsFromMessage message).Sublist commonMedications ∧
    (extractMedicationsFromMessage message).Nodup := by
  refine ⟨?_, List.filter_sublist _, ?_⟩
  · rw [extractMedicationsFromMessage, List.mem_filter]
    constructor
    · rintro ⟨hmem, hp⟩
      exact ⟨hmem, of_decide_eq_true hp⟩
    · rintro ⟨hmem, hp⟩
      exact ⟨hmem, decide_eq_true hp⟩
  · exact List.Nodup.sublist (List.filter_sublist _) (by decide)

/-- The parsed JSON body of an HTTP response, restricted to the one field
`ApiService.request` inspects: `detail`. -/
structure JsonBody where
  detail : Option String
deriving Repr, DecidableEq

/-- A settled `fetch` response as `ApiService.request` observes it: the `ok`
flag, the numeric status, and the result of trying to parse the body as JSON
(`none` when `response.json()` rejects). -/
structure FetchResponse where
  ok : Bool
  status : Nat
  body : Option JsonBody
deriving Repr, DecidableEq

/-- `ApiService.request` (services/api.js, lines 34-54), on one settled
response.  On `!response.ok` the body is parsed with fallback object
`{detail: 'Request failed'}` when parsing fails, and the thrown message is
`error.detail || 'HTTP error! status: <status>'` — a missing or empty
`detail` is falsy and selects the fallback message.  On `response.ok` the
parsed body is returned; a body that fails to parse makes the
`await response.json()` on line 49 throw a JSON parse error, which the outer
catch rethrows. -/
def request (r : FetchResponse) : Except String JsonBody :=
  if r.ok then
    match r.body with
    | some j => Except.ok j
    | none => Except.error "JSON parse error"
  else
    let err := r.body.getD ⟨some "Request failed"⟩
    match err.detail with
    | some d =>
      if d = "" then Except.error ("HTTP error! status: " ++ toString r.status)
      else Except.error d
    | none => Except.error ("HTTP error! status: " ++ toString r.status)

/-- C9 counterexample: an `ok` response whose body is not parsable JSON makes
`request` throw instead of returning a value, so "returns the parsed JSON
body exactly when the response status is ok" fails; and a JSON body
containing an empty `detail` field yields the fallback
`HTTP error! status: 500` message, not the `detail` value. -/
theorem request_claim_fails :
    request ⟨true, 200, none⟩ = Except.error "JSON parse error" ∧
    request ⟨false, 500, some ⟨some ""⟩⟩ = Except.error "HTTP error! status: 500" :=
  ⟨rfl, rfl⟩

/-- C9 amended: `request` returns the parsed JSON body when the status is ok
and the body parses; an ok response with an unparsable body throws a JSON
parse error; a non-ok response throws, with message equal to the body's
`detail` field when the body is JSON with a non-empty `detail`, the string
`Request failed` when the body is unparsable, and
`HTTP error! status: <code>` otherwise (missing or empty `detail`). -/
theorem request_case_analysis (status : Nat) (j : JsonBody) (d : String)
    (hd : d ≠ "") :
    request ⟨true, status, some j⟩ = Except.ok j ∧
    request ⟨true, status, none⟩ = Except.error "JSON parse error" ∧
    request ⟨false, status, none⟩ = Except.error "Request failed" ∧
    request ⟨false, status, some ⟨some d⟩⟩ = Except.error d ∧
    request ⟨false, status, some ⟨none⟩⟩ =
      Except.error ("HTTP error! status: " ++ toString status) ∧
    request ⟨false, status, some ⟨some ""⟩⟩ =
      Except.error ("HTTP error! status: " ++ toString status) := by
  refine ⟨rfl, rfl, rfl, ?_, rfl, rfl⟩
  unfold request
  simp [hd]

/-- C9 witness: the amended case analysis applied at a concrete non-ok
response carrying a JSON body with detail "boom". -/
theorem request_case_analysis_witness :
    ("boom" ≠ "") ∧ request ⟨false, 404, some ⟨some "boom"⟩⟩ = Except.error "boom" :=
  ⟨by decide, (request_case_analysis 404 ⟨none⟩ "boom" (by decide)).2.2.2.1⟩

/-- The non-null, non-empty drug values collected by
`PrescriptionChecker.handleCheck` (PrescriptionChecker.js, line 106):
`drugs.filter(drug => drug?.value).map(drug => drug.value)`; a null entry or
an entry with empty value string is falsy and dropped. -/
def selectedDrugs (drugs : List (Option String)) : List String :=
  (drugs.filterMap id).filter (fun v => v != "")

/-- Outcome of the client-side check handler: either a warning toast with no
request issued, or submission of the selected medication names. -/
inductive CheckOutcome where
  | rejected (msg : String)
  | submitted (meds : List String)
deriving Repr, DecidableEq

/-- `PrescriptionChecker.handleCheck` (PrescriptionChecker.js,
lines 104-111): fewer than 2 selected medications shows a warning toast and
returns without issuing any request; otherwise the selected list is submitted
to `checkInteractions`. -/
def handleCheck (drugs : List (Option String)) : CheckOutcome :=
  let sel := selectedDrugs drugs
  if sel.length < 2 then
    CheckOutcome.rejected "Please select at least 2 medications to check interactions"
  else CheckOutcome.submitted sel

/-- C6 counterexample: a list containing exactly one resolvable drug is
rejected by the web client before any check request is made, contradicting
"it is not an error and no request is rejected". -/
theorem one_drug_is_rejected :
    handleCheck [some "Aspirin"] =
      CheckOutcome.rejected "Please select at least 2 medications to check interactions" :=
  rfl

/-- Modelled from the spec: the severity levels of the engine's data model
(§3), missing from src/ together with the backend engine itself. -/
inductive Severity where
  | none
  | minor
  | moderate
  | major
deriving Repr, DecidableEq

/-- Modelled from the spec: the source tag of an InteractionRecord (§3),
curated reference data versus model-predicted data. -/
inductive RecSource where
  | curated
  | predicted
deriving Repr, DecidableEq

/-- Modelled from the spec: the engine's InteractionRecord (§3), restricted
to the fields the claims need — source tag, severity, description. -/
structure InteractionRec where
  source : RecSource
  severity : Severity
  description : String
deriving Repr, DecidableEq

/-- Modelled from the spec: the InteractionKey of §3 — the canonical
unordered pair identifier, always built with the fixed total order on the
two canonical drug ids (lower id first). -/
def canonPair (a b : Nat) : Nat × Nat := (min a b, max a b)

/-- Modelled from the spec: the engine environment missing from src/ — the
curated store keyed by canonical pair and the deterministic classifier
consulted on curated misses (§4.5), frozen at one instant (no expiry has
elapsed and no curated-store update has occurred). -/
structure EngineEnv where
  curated : Nat × Nat → Option InteractionRec
  classify : Nat × Nat → InteractionRec

/-- Modelled from the spec: `get_or_compute` of §4.5 on a fixed environment —
the curated store is authoritative, the classifier is consulted otherwise,
and both are addressed by the canonical key. -/
def getOrCompute (env : EngineEnv) (a b : Nat) : InteractionRec :=
  match env.curated (canonPair a b) with
  | some r => r
  | none => env.classify (canonPair a b)

/-- C1: for every unordered pair of drugs, the interaction record the engine
returns is identical regardless of the order in which the two ids are
supplied — `predict(A,B) = predict(B,A)` via canonical ordering, on a fixed
environment (no expiry elapsed, no curated-store update). -/
theorem getOrCompute_symm (env : EngineEnv) (a b : Nat) :
    getOrCompute env a b = getOrCompute env b a := by
  unfold getOrCompute canonPair
  rw [Nat.min_comm, Nat.max_comm]

/-- Modelled from the spec: per-key cache state for the single-flight
guarantee of §4.5.  `served` lists, in completion order, the record each
finished caller received; `waiting` counts the callers blocked on the
in-flight computation, including the caller that started it. -/
structure CacheState where
  cached : Option InteractionRec
  inflight : Bool
  invocations : Nat
  waiting : Nat
  served : List InteractionRec
deriving Repr, DecidableEq

/-- Modelled from the spec: events at one cache key — arrival of a
`get_or_compute` call, or completion of the in-flight classifier computation
with record `r`. -/
inductive CacheEvent where
  | req
  | complete (r : InteractionRec)
deriving Repr, DecidableEq

/-- Modelled from the spec: one step of the single-flight cache (§4.5).  A
hit is served at once; an arrival during an in-flight computation joins the
waiters instead of triggering a duplicate inference; a miss with nothing in
flight starts exactly one classifier invocation; completion caches the
record and serves every waiter that same record. -/
def cacheStep (s : CacheState) : CacheEvent → CacheState
  | CacheEvent.req =>
    match s.cached with
    | some v => { s with served := s.served ++ [v] }
    | none =>
      if s.inflight then { s with waiting := s.waiting + 1 }
      else { s with inflight := true, invocations := s.invocations + 1,
                    waiting := s.waiting + 1 }
  | CacheEvent.complete r =>
    if s.inflight then
      { s with cached := some r, inflight := false, waiting := 0,
               served := s.served ++ List.replicate s.waiting r }
    else s

/-- Modelled from the spec: run the cache of one key from a state over a
sequence of events (one interleaving of concurrent callers). -/
def runCache (s : CacheState) (evs : List CacheEvent) : CacheState :=
  evs.foldl cacheStep s

/-- Modelled from the spec: the state of a key never requested. -/
def initialCache : CacheState := ⟨Option.none, false, 0, 0, []⟩

lemma runCache_requests (n : Nat) (hn : 1 ≤ n) :
    runCache initialCache (List.replicate n CacheEvent.req) =
      ⟨Option.none, true, 1, n, []⟩ := by
  induction n with
  | zero => omega
  | succ m ih =>
    rcases Nat.eq_zero_or_pos m with rfl | hm
    · rfl
    · rw [List.replicate_succ', runCache, List.foldl_append]
      have h := ih hm
      rw [runCache] at h
      rw [h]
      rfl

/-- C3: when `n` concurrent `get_or_compute` requests arrive at one key
during a cache miss (any interleaving of the arrivals is the same event
sequence), exactly one classifier invocation occurs, and once it completes
with record `r` every one of the `n` callers receives that same record. -/
theorem singleFlight_one_invocation (n : Nat) (r : InteractionRec) (hn : 1 ≤ n) :
    runCache initialCache
        (List.replicate n CacheEvent.req ++ [CacheEvent.complete r]) =
      ⟨some r, false, 1, 0, List.replicate n r⟩ := by
  rw [runCache, List.foldl_append]
  have h := runCache_requests n hn
  rw [runCache] at h
  rw [h]
  show cacheStep ⟨Option.none, true, 1, n, []⟩ (CacheEvent.complete r) = _
  unfold cacheStep
  simp

/-- C3 witness: three concurrent requests for one key share a single
classifier invocation and all three receive the completed record. -/
theorem singleFlight_one_invocation_witness :
    (1 ≤ 3) ∧
    runCache initialCache
        (List.replicate 3 CacheEvent.req ++
          [CacheEvent.complete ⟨RecSource.predicted, Severity.moderate, "p"⟩]) =
      ⟨some ⟨RecSource.predicted, Severity.moderate, "p"⟩, false, 1, 0,
        List.replicate 3 ⟨RecSource.predicted, Severity.moderate, "p"⟩⟩ :=
  ⟨by omega, singleFlight_one_invocation 3 ⟨RecSource.predicted, Severity.moderate, "p"⟩ (by omega)⟩

/-- Modelled from the spec: case-insensitive deduplication of the input
names, preserving first-seen order (§4.4 step 1, part of the engine missing
from src/): keep a name and drop every later name with the same lowercase
form. -/
def dedupCI : List String → List String
  | [] => []
  | n :: rest => n :: (dedupCI rest).filter (fun m => lowerStr m != lowerStr n)

lemma dedupCI_sublist (names : List String) : (dedupCI names).Sublist names := by
  induction names with
  | nil => exact List.Sublist.refl []
  | cons a rest ih =>
    exact List.Sublist.cons₂ a ((List.filter_sublist _).trans ih)

lemma dedupCI_lower_nodup (names : List String) :
    ((dedupCI names).map lowerStr).Nodup := by
  induction names with
  | nil => simp [dedupCI]
  | cons a rest ih =>
    rw [dedupCI, List.map_cons, List.nodup_cons]
    constructor
    · intro hmem
      rcases List.mem_map.mp hmem with ⟨m, hmF, hml⟩
      have hne := (List.mem_filter.mp hmF).2
      rw [bne_iff_ne] at hne
      exact hne hml
    · exact List.Nodup.sublist
        (List.Sublist.map lowerStr (List.filter_sublist _)) ih

lemma dedupCI_class_mem {n : String} {names : List String} (hn : n ∈ names) :
    lowerStr n ∈ (dedupCI names).map lowerStr := by
  induction names with
  | nil => cases hn
  | cons a rest ih =>
    rw [dedupCI, List.map_cons]
    rcases List.mem_cons.mp hn with rfl | hmem
    · exact List.mem_cons_self _ _
    · by_cases heq : lowerStr n = lowerStr a
      · rw [heq]
        exact List.mem_cons_self _ _
      · have hrec := ih hmem
        rcases List.mem_map.mp hrec with ⟨m, hm, hml⟩
        refine List.mem_cons_of_mem _ (List.mem_map.mpr ⟨m, ?_, hml⟩)
        refine List.mem_filter.mpr ⟨hm, ?_⟩
        rw [bne_iff_ne, hml]
        exact heq

/-- Modelled from the spec: errors local to one drug or one pair (§7). -/
inductive PairErr where
  | invalidStructure (msg : String)
  | other (msg : String)
deriving Repr, DecidableEq

/-- Modelled from the spec: engine-wide failures (§7) — the only failures
surfaced as request-level failures. -/
inductive EngineErr where
  | modelUnavailable
  | cacheBackendDown
deriving Repr, DecidableEq

/-- Modelled from the spec: a canonical drug record (§3), restricted to the
id and canonical name the claims need. -/
structure Drug where
  id : Nat
  canonicalName : String
deriving Repr, DecidableEq

/-- Modelled from the spec: the environment of one check — the identity
resolver (§4.2, unresolvable names yield no drug) and per-pair resolution
through the cache (§4.5), which may fail locally for one pair. -/
structure ResolverEnv where
  resolve : String → Option Drug
  resolvePair : Drug → Drug → Except PairErr InteractionRec

/-- Modelled from the spec: the C(n,2) unordered pairs of the resolved
drugs, in first-seen order (§4.4 step 4). -/
def allPairs : List Drug → List (Drug × Drug)
  | [] => []
  | d :: rest => rest.map (fun e => (d, e)) ++ allPairs rest

/-- Modelled from the spec: numeric rank of a severity under the total order
None < Minor < Moderate < Major. -/
def sevRank : Severity → Nat
  | Severity.none => 0
  | Severity.minor => 1
  | Severity.moderate => 2
  | Severity.major => 3

/-- Modelled from the spec: overall severity = the maximum severity across
the successful pairwise records (§4.4 step 6); no records means None. -/
def overallOf (results : List (Except PairErr InteractionRec)) : Severity :=
  results.foldr (fun r acc =>
    match r with
    | Except.ok rec => if sevRank acc ≤ sevRank rec.severity then rec.severity else acc
    | Except.error _ => acc) Severity.none

/-- Modelled from the spec: the InteractionReport (§3) — resolved drugs,
unresolved names, one result-or-error entry per pair, overall severity. -/
structure InteractionReport where
  resolvedDrugs : List Drug
  unresolvedNames : List String
  pairwiseResults : List (Except PairErr InteractionRec)
  overallSeverity : Severity

/-- Modelled from the spec: the Combination Resolver's check (§4.4):
deduplicate, resolve each unique name, partition into resolved and
unresolved, resolve every unordered pair with failures kept as local
entries, and aggregate. -/
def check (env : ResolverEnv) (names : List String) : InteractionReport :=
  let uniq := dedupCI names
  let resolved := uniq.filterMap env.resolve
  let unresolved := uniq.filter (fun n => (env.resolve n).isNone)
  let results := (allPairs resolved).map (fun p => env.resolvePair p.1 p.2)
  ⟨resolved, unresolved, results, overallOf results⟩

/-- Modelled from the spec: the request boundary (§7) — only engine-wide
failures surface as request-level failures; otherwise the check always runs
to a report, whatever local failures occur inside it. -/
def checkRequest (engineFailure : Option EngineErr) (env : ResolverEnv)
    (names : List String) : Except EngineErr InteractionReport :=
  match engineFailure with
  | some e => Except.error e
  | none => Except.ok (check env names)

/-- A concrete resolution environment used by the witnesses: two known drugs
and a per-pair resolution that always fails locally. -/
def envW : ResolverEnv where
  resolve := fun n =>
    if n = "Warfarin" then some ⟨1, "Warfarin"⟩
    else if n = "Ibuprofen" then some ⟨2, "Ibuprofen"⟩
    else Option.none
  resolvePair := fun _ _ => Except.error (PairErr.invalidStructure "unparsable structure")

/-- C4: with no engine-wide failure the request always yields a report —
local failures never abort the whole check — the unresolved names are
reported inside the report, and every pair's result-or-error (including any
local pair failure) is captured as one structured entry of the report's
pairwise results, one entry per pair. -/
theorem check_keeps_local_failures (env : ResolverEnv) (names : List String)
    (p : Drug × Drug)
    (hp : p ∈ allPairs ((dedupCI names).filterMap env.resolve)) :
    checkRequest Option.none env names = Except.ok (check env names) ∧
    (check env names).unresolvedNames =
      (dedupCI names).filter (fun n => (env.resolve n).isNone) ∧
    env.resolvePair p.1 p.2 ∈ (check env names).pairwiseResults ∧
    (check env names).pairwiseResults.length =
      (allPairs ((dedupCI names).filterMap env.resolve)).length := by
  have hres : (check env names).pairwiseResults =
      (allPairs ((dedupCI names).filterMap env.resolve)).map
        (fun p => env.resolvePair p.1 p.2) := rfl
  refine ⟨rfl, rfl, ?_, ?_⟩
  · rw [hres]
    exact List.mem_map.mpr ⟨p, hp, rfl⟩
  · rw [hres, List.length_map]

/-- C4 witness: the check on two resolvable drugs whose single pair
resolution fails locally still returns a report, with the failure recorded
as a pairwise entry. -/
theorem check_keeps_local_failures_witness :
    ((⟨1, "Warfarin"⟩, ⟨2, "Ibuprofen"⟩) : Drug × Drug) ∈
      allPairs ((dedupCI ["Warfarin", "Ibuprofen"]).filterMap envW.resolve) ∧
    checkRequest Option.none envW ["Warfarin", "Ibuprofen"] =
      Except.ok (check envW ["Warfarin", "Ibuprofen"]) ∧
    Except.error (PairErr.invalidStructure "unparsable structure") ∈
      (check envW ["Warfarin", "Ibuprofen"]).pairwiseResults := by
  have h := check_keeps_local_failures envW ["Warfarin", "Ibuprofen"]
    (⟨1, "Warfarin"⟩, ⟨2, "Ibuprofen"⟩) (by decide)
  exact ⟨by decide, h.1, h.2.2.1⟩

lemma allPairs_short (l : List Drug) (h : l.length < 2) : allPairs l = [] := by
  match l with
  | [] => rfl
  | [d] => rfl
  | d :: e :: t =>
    simp [List.length_cons] at h
    omega

/-- C6 (amended): when the resolved entries number fewer than 2 the engine
check succeeds with an empty pairwise result set and overall severity None
(and the client maps an empty interaction list to risk level low); the web
client, however, rejects input lists of fewer than 2 selected medications
before any request is made. -/
theorem fewer_than_two_resolved (env : ResolverEnv) (names : List String)
    (ds : List (Option String))
    (hres : ((dedupCI names).filterMap env.resolve).length < 2)
    (hds : (selectedDrugs ds).length < 2) :
    (check env names).pairwiseResults = [] ∧
    (check env names).overallSeverity = Severity.none ∧
    getRiskLevel [] = "low" ∧
    handleCheck ds =
      CheckOutcome.rejected "Please select at least 2 medications to check interactions" := by
  have hp : allPairs ((dedupCI names).filterMap env.resolve) = [] :=
    allPairs_short _ hres
  have h1 : (check env names).pairwiseResults = [] := by
    show (allPairs ((dedupCI names).filterMap env.resolve)).map
      (fun p => env.resolvePair p.1 p.2) = []
    rw [hp]
    rfl
  refine ⟨h1, ?_, rfl, ?_⟩
  · show overallOf ((allPairs ((dedupCI names).filterMap env.resolve)).map
      (fun p => env.resolvePair p.1 p.2)) = Severity.none
    rw [hp]
    rfl
  · unfold handleCheck
    rw [if_pos hds]

/-- C6 witness: one resolvable name gives an empty, severity-None report at
the engine, while the client rejects a one-entry selection. -/
theorem fewer_than_two_resolved_witness :
    ((dedupCI ["Warfarin"]).filterMap envW.resolve).length < 2 ∧
    (check envW ["Warfarin"]).pairwiseResults = [] ∧
    (check envW ["Warfarin"]).overallSeverity = Severity.none ∧
    getRiskLevel [] = "low" ∧
    handleCheck [some "Aspirin"] =
      CheckOutcome.rejected "Please select at least 2 medications to check interactions" := by
  have h := fewer_than_two_resolved envW ["Warfarin"] [some "Aspirin"]
    (by decide) (by decide)
  exact ⟨by decide, h.1, h.2.1, h.2.2.1, h.2.2.2⟩

/-- Modelled from the spec: input to one pairwise prediction — each side
carries the parsed fingerprint, or nothing when its structural text could
not be parsed (InvalidStructureError, §4.1 and §7). -/
structure PairInput where
  fpA : Option (List Nat)
  fpB : Option (List Nat)
deriving Repr, DecidableEq

/-- Modelled from the spec: a single prediction (§4.3) — a ranked
label/probability list (abstracted to pairs of numbers) on two valid
fingerprints, a structured InvalidStructureError entry otherwise. -/
def predictOne (classify : List Nat → List Nat → List (Nat × Nat))
    (p : PairInput) : Except PairErr (List (Nat × Nat)) :=
  match p.fpA, p.fpB with
  | some a, some b => Except.ok (classify a b)
  | _, _ => Except.error (PairErr.invalidStructure "unparsable structure")

/-- Modelled from the spec: `predict_batch` (§4.3) — one result-or-error per
input pair, in input order, never an all-or-nothing batch. -/
def predictBatch (classify : List Nat → List Nat → List (Nat × Nat))
    (pairs : List PairInput) : List (Except PairErr (List (Nat × Nat))) :=
  pairs.map (predictOne classify)

/-- C5: a batch prediction returns exactly one result-or-error entry per
input pair in input order — entry `i` is the prediction of input `i` — and a
malformed input at position `i` leaves every sibling entry `j ≠ i`
unchanged. -/
theorem predictBatch_per_pair (classify : List Nat → List Nat → List (Nat × Nat))
    (pairs : List PairInput) (i j : Nat) (hij : j ≠ i) :
    (predictBatch classify pairs).length = pairs.length ∧
    (predictBatch classify pairs)[i]? = (pairs[i]?).map (predictOne classify) ∧
    (predictBatch classify (pairs.set i ⟨Option.none, Option.none⟩))[j]? =
      (predictBatch classify pairs)[j]? := by
  refine ⟨List.length_map _ _, List.getElem?_map _ _ _, ?_⟩
  rw [predictBatch, predictBatch, List.getElem?_map, List.getElem?_map,
    List.getElem?_set_ne (fun h => hij h.symm)]

/-- A concrete classifier used by the C5 witness. -/
def clW : List Nat → List Nat → List (Nat × Nat) := fun _ _ => [(0, 900)]

/-- C5 witness: a batch of three pairs whose second input is malformed
yields three entries — an InvalidStructureError entry for pair 2 and normal
predictions for pairs 1 and 3 — and corrupting input 1 does not change
entry 2. -/
theorem predictBatch_per_pair_witness :
    predictBatch clW [⟨some [1], some [2]⟩, ⟨Option.none, some [3]⟩, ⟨some [4], some [5]⟩] =
      [Except.ok [(0, 900)],
       Except.error (PairErr.invalidStructure "unparsable structure"),
       Except.ok [(0, 900)]] ∧
    (predictBatch clW [⟨some [1], some [2]⟩, ⟨Option.none, some [3]⟩, ⟨some [4], some [5]⟩]).length = 3 ∧
    (predictBatch clW
      ([⟨some [1], some [2]⟩, ⟨Option.none, some [3]⟩, ⟨some [4], some [5]⟩].set 0
        ⟨Option.none, Option.none⟩))[2]? =
      (predictBatch clW [⟨some [1], some [2]⟩, ⟨Option.none, some [3]⟩, ⟨some [4], some [5]⟩])[2]? := by
  have h := predictBatch_per_pair clW
    [⟨some [1], some [2]⟩, ⟨Option.none, some [3]⟩, ⟨some [4], some [5]⟩] 0 2 (by decide)
  exact ⟨rfl, h.1, h.2.2⟩

/-- C7: the names submitted for resolution are deduplicated
case-insensitively before resolution, preserving first-seen order: the
deduplicated list is a sublist of the input (order of first occurrences),
its lowercase forms are pairwise distinct (two names differing only in case
yield a single entry), every input name's case class is represented, and the
check resolves exactly the deduplicated names. -/
theorem dedupCI_characterization (env : ResolverEnv) (names : List String)
    (n : String) (hn : n ∈ names) :
    ((dedupCI names).map lowerStr).Nodup ∧
    (dedupCI names).Sublist names ∧
    lowerStr n ∈ (dedupCI names).map lowerStr ∧
    (check env names).resolvedDrugs = (dedupCI names).filterMap env.resolve :=
  ⟨dedupCI_lower_nodup names, dedupCI_sublist names, dedupCI_class_mem hn, rfl⟩

/-- C7 witness: two spellings of aspirin collapse to the first-seen one
while the order of survivors is the input order. -/
theorem dedupCI_characterization_witness :
    dedupCI ["Aspirin", "aspirin", "Ibuprofen"] = ["Aspirin", "Ibuprofen"] ∧
    ((dedupCI ["Aspirin", "aspirin", "Ibuprofen"]).map lowerStr).Nodup ∧
    (dedupCI ["Aspirin", "aspirin", "Ibuprofen"]).Sublist
      ["Aspirin", "aspirin", "Ibuprofen"] ∧
    lowerStr "aspirin" ∈ (dedupCI ["Aspirin", "aspirin", "Ibuprofen"]).map lowerStr := by
  have h := dedupCI_characterization envW ["Aspirin", "aspirin", "Ibuprofen"]
    "aspirin" (by decide)
  exact ⟨by decide, h.1, h.2.1, h.2.2.1⟩

/-- `['high', 'severe'].includes(i.severity?.toLowerCase())` from
`DrugInteractionService.formatInteractionMessage` (lines 74-76); a missing
severity yields `undefined`, which is in neither list. -/
def isHighRisk (i : Interaction) : Bool :=
  match i.severity with
  | some s => lowerStr s == "high" || lowerStr s == "severe"
  | none => false

/-- `['moderate', 'medium'].includes(i.severity?.toLowerCase())` from
`DrugInteractionService.formatInteractionMessage` (lines 78-80). -/
def isMediumRisk (i : Interaction) : Bool :=
  match i.severity with
  | some s => lowerStr s == "moderate" || lowerStr s == "medium"
  | none => false

/-- The high-risk fragment appended on line 84 for a positive count `k`. -/
def highMsg (k : Nat) : String :=
  "⚠️ " ++ toString k ++ " high-risk interaction(s) detected. "

/-- The moderate-risk fragment appended on line 87 for a positive count `k`. -/
def medMsg (k : Nat) : String :=
  "⚡ " ++ toString k ++ " moderate-risk interaction(s) found. "

/-- `DrugInteractionService.formatInteractionMessage`
(services/drugInteractionService.js, lines 69-91): a fixed message for an
empty list, otherwise the concatenation of the high-risk fragment (when the
high-risk count is positive) and the moderate-risk fragment (when the
moderate-risk count is positive), falling back to a fixed review message
when neither count is positive. -/
def formatInteractionMessage (interactions : List Interaction) : String :=
  if interactions.length = 0 then
    "No significant drug interactions found."
  else
    let message :=
      (if 0 < (interactions.filter isHighRisk).length then
        highMsg (interactions.filter isHighRisk).length
      else "")
      ++ (if 0 < (interactions.filter isMediumRisk).length then
        medMsg (interactions.filter isMediumRisk).length
      else "")
    if message = "" then "Some interactions detected. Please review carefully."
    else message

/-- A concrete high-severity record used in the C8 theorems. -/
def recHigh : Interaction :=
  ⟨some "Warfarin", some "Ibuprofen", some "High", some "bleeding risk"⟩

/-- A concrete moderate-severity record used in the C8 theorems. -/
def recMed : Interaction :=
  ⟨some "Warfarin", some "Lisinopril", some "moderate", some "reduced effect"⟩

/-- C8 counterexample: the summary text is computed from the interaction
records alone and never contains the unresolved input names — with one
high record and unresolved input name "warfarin", the summary is exactly the
high-count message and "warfarin" does not occur in it. -/
theorem summary_lacks_unresolved_names :
    formatInteractionMessage [recHigh] = "⚠️ 1 high-risk interaction(s) detected. " ∧
    ¬ ("warfarin".data <:+: (formatInteractionMessage [recHigh]).data) := by
  constructor
  · rfl
  · decide

lemma highMsg_data_ne (k : Nat) : (highMsg k).data ≠ [] := by
  intro h
  rw [highMsg, String.data_append, String.data_append] at h
  have h1 := (List.append_eq_nil.mp (List.append_eq_nil.mp h).1).1
  exact absurd h1 (by decide)

lemma medMsg_data_ne (k : Nat) : (medMsg k).data ≠ [] := by
  intro h
  rw [medMsg, String.data_append, String.data_append] at h
  have h1 := (List.append_eq_nil.mp (List.append_eq_nil.mp h).1).1
  exact absurd h1 (by decide)

lemma append_ne_empty_of_left (s t : String) (hs : s.data ≠ []) : s ++ t ≠ "" := by
  intro h
  have hd := congrArg String.data h
  rw [String.data_append] at hd
  exact hs (List.append_eq_nil.mp hd).1

lemma append_ne_empty_of_right (s t : String) (ht : t.data ≠ []) : s ++ t ≠ "" := by
  intro h
  have hd := congrArg String.data h
  rw [String.data_append] at hd
  exact ht (List.append_eq_nil.mp hd).2

/-- C8 (amended): for a non-empty record list the summary text contains the
count of high-risk (high/severe) records whenever it is positive and the
count of moderate-risk (moderate/medium) records whenever it is positive;
when neither count is positive it is a fixed review message, and for no
records it is a fixed no-interaction message.  The names of unresolved
inputs are not part of the summary. -/
theorem summary_contains_bucket_counts (l : List Interaction) (hne : l ≠ []) :
    (0 < (l.filter isHighRisk).length →
      (toString (l.filter isHighRisk).length).data <:+: (formatInteractionMessage l).data) ∧
    (0 < (l.filter isMediumRisk).length →
      (toString (l.filter isMediumRisk).length).data <:+: (formatInteractionMessage l).data) ∧
    ((l.filter isHighRisk).length = 0 → (l.filter isMediumRisk).length = 0 →
      formatInteractionMessage l = "Some interactions detected. Please review carefully.") ∧
    formatInteractionMessage [] = "No significant drug interactions found." := by
  have hlen : ¬ (l.length = 0) := fun h => hne (List.length_eq_zero.mp h)
  have hform : formatInteractionMessage l =
      (if ((if 0 < (l.filter isHighRisk).length then
            highMsg (l.filter isHighRisk).length else "")
          ++ (if 0 < (l.filter isMediumRisk).length then
            medMsg (l.filter isMediumRisk).length else "")) = ""
        then "Some interactions detected. Please review carefully."
        else ((if 0 < (l.filter isHighRisk).length then
            highMsg (l.filter isHighRisk).length else "")
          ++ (if 0 < (l.filter isMediumRisk).length then
            medMsg (l.filter isMediumRisk).length else ""))) := by
    unfold formatInteractionMessage
    rw [if_neg hlen]
  refine ⟨?_, ?_, ?_, rfl⟩
  · intro hH
    rw [hform, if_pos hH]
    by_cases hM : 0 < (l.filter isMediumRisk).length
    · rw [if_pos hM,
        if_neg (append_ne_empty_of_left _ _ (highMsg_data_ne _))]
      exact ⟨"⚠️ ".data,
        (" high-risk interaction(s) detected. ").data ++
          (medMsg (l.filter isMediumRisk).length).data,
        by simp [highMsg, String.data_append, List.append_assoc]⟩
    · rw [if_neg hM,
        if_neg (append_ne_empty_of_left _ _ (highMsg_data_ne _))]
      exact ⟨"⚠️ ".data, (" high-risk interaction(s) detected. ").data ++ [],
        by simp [highMsg, String.data_append, List.append_assoc]⟩
  · intro hM
    rw [hform, if_pos hM]
    by_cases hH : 0 < (l.filter isHighRisk).length
    · rw [if_pos hH,
        if_neg (append_ne_empty_of_left _ _ (highMsg_data_ne _))]
      exact ⟨(highMsg (l.filter isHighRisk).length).data ++ "⚡ ".data,
        (" moderate-risk interaction(s) found. ").data,
        by simp [medMsg, String.data_append, List.append_assoc]⟩
    · rw [if_neg hH,
        if_neg (append_ne_empty_of_right _ _ (medMsg_data_ne _))]
      exact ⟨[] ++ "⚡ ".data, (" moderate-risk interaction(s) found. ").data,
        by simp [medMsg, String.data_append, List.append_assoc]⟩
  · intro hH0 hM0
    rw [hform]
    have hH : ¬ 0 < (l.filter isHighRisk).length := by omega
    have hM : ¬ 0 < (l.filter isMediumRisk).length := by omega
    rw [if_neg hH, if_neg hM]
    simp

/-- C8 witness: with one high and one moderate record, the summary contains
both bucket counts. -/
theorem summary_contains_bucket_counts_witness :
    (toString ([recHigh, recMed].filter isHighRisk).length).data <:+:
      (formatInteractionMessage [recHigh, recMed]).data ∧
    (toString ([recHigh, recMed].filter isMediumRisk).length).data <:+:
      (formatInteractionMessage [recHigh, recMed]).data := by
  have h := summary_contains_bucket_counts [recHigh, recMed] (by decide)
  exact ⟨h.1 (by decide), h.2.1 (by decide)⟩

end MediTrack
